import Mathlib

/-!
Shallow embedding of the soil-analysis pipeline of `src/src/workers/soil.js`
(and the geometry-hash helper of the accompanying front-end file).

Numbers that are IEEE doubles in the JavaScript source are modelled as exact
rationals (`ℚ`).  Calls into the external geometry libraries (`@turf/turf`,
`polygon-clipping`, `wellknown`) and the remote SDA service are abstracted as
oracle fields of an environment record: a thrown JS exception is `Except.error`,
a `null`/`undefined` result is `Option.none`.  The control flow of every
function of the repository is translated statement by statement.
-/

/-- A linear ring: a list of (longitude, latitude) coordinate pairs. -/
abbrev GeoRing : Type := List (ℚ × ℚ)

/-- The rings of one polygon (outer ring plus holes). -/
abbrev GeoPoly : Type := List GeoRing

/-- A GeoJSON geometry object.  `other t` stands for any geometry object whose
`type` string is `t` but is neither a Polygon nor a MultiPolygon (e.g. Point);
such objects still carry `type` and `coordinates` members. -/
inductive Geometry : Type
  | polygon (rings : GeoPoly)
  | multiPolygon (polys : List GeoPoly)
  | other (t : String)
deriving DecidableEq

/-- The `type` string of a geometry object. -/
def Geometry.typeName : Geometry → String
  | .polygon _ => "Polygon"
  | .multiPolygon _ => "MultiPolygon"
  | .other t => t

/-- Result record of `calculateRobustIntersection`:
`{ geometry, area, method }`. -/
structure IntersectionResult : Type where
  geometry : Geometry
  area : ℚ
  method : String
deriving DecidableEq

/-- Oracles for the external geometry libraries.  `Except.error ()` models a
thrown exception; inner `Option.none` models a `null` / missing result. -/
structure GeomOps : Type where
  /-- `turf.intersect` on two features: `none` models a null result or a
  result with no `geometry` member. -/
  intersect : Geometry → Geometry → Except Unit (Option Geometry)
  /-- `turf.area` of a feature wrapping the given geometry (square meters). -/
  area : Geometry → ℚ
  /-- `polygonClipping.intersection [a] [b]`: a list of polygons. -/
  clip : GeoPoly → GeoPoly → Except Unit (List GeoPoly)
  /-- `turf.booleanWithin`. -/
  booleanWithin : Geometry → Geometry → Except Unit Bool
  /-- `turf.booleanIntersects`. -/
  booleanIntersects : Geometry → Geometry → Except Unit Bool

/-- `getPolygonCoordinates` (soil.js lines 143-157): the `coordinates` of a
Polygon, the first polygon of a MultiPolygon (`undefined`, hence a falsy
value treated like `null` by the caller, when the MultiPolygon is empty),
`null` for any other type. -/
def getPolygonCoordinates : Geometry → Option GeoPoly
  | .polygon rings => some rings
  | .multiPolygon polys => polys.head?
  | .other _ => none

/-- Method 1 of `calculateRobustIntersection` (lines 32-61): `turf.intersect`,
kept only when the area is at least 0.1 m²; any failure falls through. -/
def robustMethod1 (ops : GeomOps) (soil study : Geometry) :
    Option IntersectionResult :=
  match ops.intersect soil study with
  | .error _ => none
  | .ok none => none
  | .ok (some g) =>
    if (1 : ℚ)/10 ≤ ops.area g then some ⟨g, ops.area g, "turf_intersect"⟩
    else none

/-- Rebuilding a GeoJSON geometry from a non-empty clip result
(lines 84-90): a Polygon for a single polygon, a MultiPolygon otherwise. -/
def clipGeometry (p : GeoPoly) (ps : List GeoPoly) : Geometry :=
  if ps = [] then Geometry.polygon p else Geometry.multiPolygon (p :: ps)

/-- Method 2 (lines 63-106).  The outer `Option` is `none` when control falls
through to method 3 (a thrown exception, or an area below 0.1 m²); it is
`some r` when the function returns `r` (which is `none` exactly on the
`return null` statements for missing coordinates or an empty clip result). -/
def robustMethod2 (ops : GeomOps) (soil study : Geometry) :
    Option (Option IntersectionResult) :=
  match getPolygonCoordinates soil, getPolygonCoordinates study with
  | some soilCoords, some studyCoords =>
    match ops.clip soilCoords studyCoords with
    | .error _ => none
    | .ok [] => some none
    | .ok (p :: ps) =>
      if (1 : ℚ)/10 ≤ ops.area (clipGeometry p ps) then
        some (some ⟨clipGeometry p ps, ops.area (clipGeometry p ps),
          "polygon_clipping"⟩)
      else none
  | _, _ => some none

/-- Method 3 (lines 108-132): containment checks, no area threshold.
A thrown exception is caught and leads to the final `return null`. -/
def robustMethod3 (ops : GeomOps) (soil study : Geometry) :
    Option IntersectionResult :=
  match ops.booleanWithin soil study with
  | .error _ => none
  | .ok true => some ⟨soil, ops.area soil, "soil_within_study"⟩
  | .ok false =>
    match ops.booleanWithin study soil with
    | .error _ => none
    | .ok true => some ⟨study, ops.area study, "study_within_soil"⟩
    | .ok false => none

/-- `calculateRobustIntersection` (lines 31-135): the three-method chain. -/
def calculateRobustIntersection (ops : GeomOps) (soil study : Geometry) :
    Option IntersectionResult :=
  match robustMethod1 ops soil study with
  | some r => some r
  | none =>
    match robustMethod2 ops soil study with
    | some r => r
    | none => robustMethod3 ops soil study

/-- `Math.round`: round half toward positive infinity. -/
def jsRound (x : ℚ) : ℤ := ⌊x + 1/2⌋

/-- `sqmToAcres` (lines 20-21):
`Math.round(areaSqm * 0.000247105381 * 1e6) / 1e6`. -/
def sqmToAcres (areaSqm : ℚ) : ℚ :=
  (jsRound (areaSqm * (247105381 / 1000000000000) * 1000000) : ℚ) / 1000000

/-- A row of the tabular SDA response (`data.Table`); cells as strings. -/
abbrev SdaRow : Type := List String

/-- A JavaScript error value: its `name` and `message`. -/
structure SdaError : Type where
  name : String
  message : String
deriving DecidableEq

/-- One observable step of `executeSDQuery`: a fetch attempt (by 0-based
index) or a `wait(ms)` call between attempts. -/
inductive QueryEvent : Type
  | attempt (k : Nat)
  | delay (ms : Nat)
deriving DecidableEq

/-- The backoff delay after attempt `k` (soil.js line 233):
`Math.min(1000 * Math.pow(2, attempt), 10000)`. -/
def backoffDelay (k : Nat) : Nat := min (1000 * 2 ^ k) 10000

/-- The retry loop of `executeSDQuery` (lines 177-239), from attempt index
`k` with `lastError` as seen so far.  `attemptFetch k` is the outcome of the
whole k-th try-block body (the fetch, status check, content-type check and
JSON parse).  The result error is `none` when the final `throw lastError`
throws the still-undefined `lastError` (possible only when `retries = 0`).
An `AbortError` is rethrown at once as the query-timeout error. -/
def runAttempts (attemptFetch : Nat → Except SdaError (List SdaRow))
    (retries k : Nat) (lastError : Option SdaError) :
    Except (Option SdaError) (List SdaRow) × List QueryEvent :=
  if _h : k < retries then
    match attemptFetch k with
    | .ok rows => (.ok rows, [QueryEvent.attempt k])
    | .error e =>
      if e.name = "AbortError" then
        (.error (some ⟨"Error",
          "Query timeout - try reducing scope or increasing timeout"⟩),
         [QueryEvent.attempt k])
      else if k < retries - 1 then
        let rest := runAttempts attemptFetch retries (k + 1) (some e)
        (rest.1, QueryEvent.attempt k :: QueryEvent.delay (backoffDelay k)
          :: rest.2)
      else
        let rest := runAttempts attemptFetch retries (k + 1) (some e)
        (rest.1, QueryEvent.attempt k :: rest.2)
  else
    (.error lastError, [])
termination_by retries - k

/-- `executeSDQuery` (lines 166-240) for a given per-attempt outcome oracle,
returning the result together with the trace of attempts and delays.
`retries` defaults to `SDA_CONFIG.MAX_RETRIES = 3`. -/
def executeSDQuery (attemptFetch : Nat → Except SdaError (List SdaRow))
    (retries : Nat := 3) :
    Except (Option SdaError) (List SdaRow) × List QueryEvent :=
  runAttempts attemptFetch retries 0 none

/-- The event trace of `n` consecutive failing attempts starting at attempt
index `k`: each attempt is followed by its backoff delay except the last. -/
def expectedTraceFrom : Nat → Nat → List QueryEvent
  | _, 0 => []
  | k, 1 => [QueryEvent.attempt k]
  | k, n + 2 =>
    QueryEvent.attempt k :: QueryEvent.delay (backoffDelay k)
      :: expectedTraceFrom (k + 1) (n + 1)

/-- The attempt indices occurring in an event trace, in order. -/
def attemptIndices (evs : List QueryEvent) : List Nat :=
  evs.filterMap fun e =>
    match e with
    | QueryEvent.attempt k => some k
    | QueryEvent.delay _ => none

/-- The delays occurring in an event trace, in order. -/
def delayValues (evs : List QueryEvent) : List Nat :=
  evs.filterMap fun e =>
    match e with
    | QueryEvent.attempt _ => none
    | QueryEvent.delay ms => some ms

/-- A GeoJSON feature object: its `type` string, its (possibly missing)
`geometry`, and all of its remaining properties (irrelevant to the
analysis and to the geometry hash). -/
structure GeoFeature : Type where
  ftype : String
  geometry : Option Geometry
  extraProps : List (String × String)
deriving DecidableEq

/-- A GeoJSON payload as dispatched on by `extractAndConvertGeometry`:
a FeatureCollection (whose `features` member may be missing), a Feature,
a bare Polygon/MultiPolygon geometry, or an object of any other `type`. -/
inductive GeoJson : Type
  | fc (features : Option (List GeoFeature))
  | feat (f : GeoFeature)
  | geom (g : Geometry)
  | other (t : String)
deriving DecidableEq

/-- The `type` string of a GeoJSON payload. -/
def GeoJson.typeName : GeoJson → String
  | .fc _ => "FeatureCollection"
  | .feat _ => "Feature"
  | .geom g => g.typeName
  | .other t => t

/-- The environment of the pipeline: geometry-library oracles, the WKT
(de)serializer oracles, and one oracle per remote query shape (each remote
query runs through `executeSDQuery`, abstracted here by its outcome). -/
structure SoilEnv : Type where
  ops : GeomOps
  /-- `wkx.stringify` (the `wellknown` serializer). -/
  stringifyWkt : Geometry → String
  /-- `turf.union` of two features with the given geometries. -/
  unionGeom : Option Geometry → Option Geometry → Except Unit (Option Geometry)
  /-- `wkx.parse` of a WKT string. -/
  parseWkt : String → Except Unit Geometry
  /-- Outcome of the map-unit lookup query for a WKT string. -/
  mukeyQuery : String → Except SdaError (List SdaRow)
  /-- Outcome of the soil-properties query for a key list. -/
  propsQuery : List String → Except SdaError (List SdaRow)
  /-- Outcome of the polygon query for one map-unit key. -/
  polygonQuery : String → Except SdaError (List SdaRow)

/-- One step of the feature-union loop (soil.js lines 272-288): a union
failure (thrown or null result) keeps the running union. -/
def unionStep (env : SoilEnv) (acc g : Option Geometry) : Option Geometry :=
  match env.unionGeom acc g with
  | .error _ => acc
  | .ok none => acc
  | .ok (some u) => some u

/-- The `geometry` selection of `extractAndConvertGeometry`
(lines 264-297): single-feature collections use that feature's geometry,
larger ones are unioned left to right, Features and bare geometries pass
through, everything else throws `Unsupported GeoJSON type`. -/
def extractGeometryStage (env : SoilEnv) (gj : GeoJson) :
    Except String (Option Geometry) :=
  match gj with
  | .fc (some (f :: fs)) =>
    if fs.isEmpty then .ok f.geometry
    else .ok (fs.foldl (fun acc fi => unionStep env acc fi.geometry) f.geometry)
  | .fc _ => .error ("Unsupported GeoJSON type: FeatureCollection")
  | .feat f => .ok f.geometry
  | .geom g => .ok (some g)
  | .other t => .error ("Unsupported GeoJSON type: " ++ t)

/-- `extractAndConvertGeometry` (lines 249-325).  Every thrown message is
wrapped in `Geometry processing failed: ` by the closing catch.  The
missing-type/missing-coordinates validation of line 304 cannot fire in this
model because every `Geometry` value carries both members. -/
def extractAndConvertGeometry (env : SoilEnv) (gj : GeoJson) :
    Except String (Geometry × String) :=
  match extractGeometryStage env gj with
  | .error msg => .error ("Geometry processing failed: " ++ msg)
  | .ok none =>
    .error "Geometry processing failed: No valid geometry found after processing"
  | .ok (some geo) =>
    let wkt := env.stringifyWkt geo
    if wkt = "" then
      .error "Geometry processing failed: WKT conversion resulted in empty string"
    else .ok (geo, wkt)

/-- `String(row[0])`: the first cell of a row, the string `undefined` when
the row is empty. -/
def rowFirstCell (row : SdaRow) : String :=
  match row.head? with
  | some s => s
  | none => "undefined"

/-- An ASCII whitespace character (the common core of the JavaScript
`String.prototype.trim` whitespace set). -/
def isWsChar (c : Char) : Bool :=
  c == ' ' || c == '\t' || c == '\n' || c == '\r'

/-- JavaScript `String.prototype.trim`: whitespace stripped from both
ends. -/
def jsTrim (s : String) : String :=
  String.mk (((s.data.dropWhile isWsChar).reverse.dropWhile isWsChar).reverse)

/-- `getSoilMapUnitKeys` (lines 334-352): first cells of the lookup rows,
keeping only keys that are truthy and of truthy trim. -/
def getSoilMapUnitKeys (env : SoilEnv) (wkt : String) :
    Except SdaError (List String) :=
  match env.mukeyQuery wkt with
  | .error e => .error e
  | .ok rows =>
    .ok ((rows.map rowFirstCell).filter fun k => !(k == "") && !(jsTrim k == ""))

/-- The per-key property record; modelled as the raw result row whose 13
cells populate the JS object. -/
abbrev SoilProps : Type := SdaRow

/-- `getSoilProperties` (lines 361-448): an empty key list yields the empty
table without a query; otherwise the rows are keyed by their first cell,
later rows overwriting earlier ones. -/
def getSoilProperties (env : SoilEnv) (mukeys : List String) :
    Except SdaError (String → Option SoilProps) :=
  if mukeys.isEmpty then .ok fun _ => none
  else
    match env.propsQuery mukeys with
    | .error e => .error e
    | .ok rows =>
      .ok (rows.foldl
        (fun m row k => if k = rowFirstCell row then some row else m k)
        fun _ => none)

/-- An emitted intersection feature (lines 579-589): key, areas, method
tag, the spread property record, and the intersection geometry. -/
structure OutFeature : Type where
  mukey : String
  area_acres : ℚ
  area_sqm : ℚ
  method : String
  props : Option SoilProps
  geometry : Geometry
deriving DecidableEq

/-- One per-unit entry of the pipeline output (lines 610-614). -/
structure UnitResult : Type where
  mukey : String
  area_acres : ℚ
  features : List OutFeature
deriving DecidableEq

/-- The body of the inner polygon loop (lines 495-607) for one WKT row:
`none` when the row contributes nothing (parse failure, no spatial
intersection, no robust result, or acreage at most the 0.0001-acre floor). -/
def processPolygonRow (env : SoilEnv) (studyGeom : Geometry) (mukey : String)
    (props : String → Option SoilProps) (row : SdaRow) : Option OutFeature :=
  match row.head? with
  | none => none
  | some wkt =>
    match env.parseWkt wkt with
    | .error _ => none
    | .ok soilGeom =>
      match env.ops.booleanIntersects soilGeom studyGeom with
      | .error _ => none
      | .ok false => none
      | .ok true =>
        match calculateRobustIntersection env.ops soilGeom studyGeom with
        | none => none
        | some r =>
          if (1 : ℚ)/10000 < sqmToAcres (env.ops.area r.geometry) then
            some ⟨mukey, sqmToAcres (env.ops.area r.geometry),
              env.ops.area r.geometry, r.method, props mukey, r.geometry⟩
          else none

/-- One step of the area/feature accumulation of the inner polygon loop
(lines 576-598): a contributing row adds its acreage and appends its
feature. -/
def accumStep (env : SoilEnv) (studyGeom : Geometry) (mukey : String)
    (props : String → Option SoilProps) (acc : ℚ × List OutFeature)
    (row : SdaRow) : ℚ × List OutFeature :=
  match processPolygonRow env studyGeom mukey props row with
  | some f => (acc.1 + f.area_acres, acc.2 ++ [f])
  | none => acc

/-- The accumulated `(totalIntersectionArea, intersectionFeatures)` state
after the inner polygon loop. -/
def accumRows (env : SoilEnv) (studyGeom : Geometry) (mukey : String)
    (props : String → Option SoilProps) (rows : List SdaRow) :
    ℚ × List OutFeature :=
  rows.foldl (accumStep env studyGeom mukey props) ((0 : ℚ), [])

/-- The keep-or-drop decision of lines 609-623: the unit is kept only with
a positive total area and a present property record. -/
def unitOfAccum (mukey : String) (props : String → Option SoilProps)
    (st : ℚ × List OutFeature) : Option UnitResult :=
  if 0 < st.1 ∧ (props mukey).isSome then some ⟨mukey, st.1, st.2⟩ else none

/-- The body of the outer per-key loop (lines 472-630) for one key:
a failed or empty polygon query contributes nothing; otherwise the polygon
rows are accumulated and the unit is kept or dropped. -/
def processUnit (env : SoilEnv) (studyGeom : Geometry)
    (props : String → Option SoilProps) (mukey : String) : Option UnitResult :=
  match env.polygonQuery mukey with
  | .error _ => none
  | .ok [] => none
  | .ok rows =>
    unitOfAccum mukey props (accumRows env studyGeom mukey props rows)

/-- `calculateSoilIntersections` (lines 460-657): the per-key loop followed
by the stable descending sort on total acreage. -/
def calculateSoilIntersections (env : SoilEnv) (mukeys : List String)
    (studyGeom : Geometry) (props : String → Option SoilProps) :
    List UnitResult :=
  (mukeys.filterMap (processUnit env studyGeom props)).mergeSort
    fun a b => decide (b.area_acres ≤ a.area_acres)

/-- The key-list truncation of `getSoilPolygonsAndAreas` (line 765):
`maxResults > 0 ? mukeys.slice(0, maxResults) : mukeys`. -/
def limitKeys (maxResults : Int) (mukeys : List String) : List String :=
  if 0 < maxResults then mukeys.take maxResults.toNat else mukeys

/-- The stages of the pipeline that issue remote queries, recorded in order
of invocation; the two later stages carry the key list they receive. -/
inductive Stage : Type
  | mukeyLookup
  | propertyFetch (keys : List String)
  | intersections (keys : List String)
deriving DecidableEq

/-- The top-level `properties` object of the result FeatureCollection
(lines 841-848). -/
structure ResultProps : Type where
  total_area_acres : ℚ
  mapunit_count : Nat
  study_area : GeoJson
deriving DecidableEq

/-- The result FeatureCollection; `properties` is absent (`none`) on the
zero-map-unit early return (lines 759-762). -/
structure FCResult : Type where
  features : List OutFeature
  properties : Option ResultProps
deriving DecidableEq

/-- `getSoilPolygonsAndAreas` (lines 704-865) with its `maxResults = 100`
default, returning the outcome together with the trace of query stages.
Every thrown message is wrapped in `Soil analysis failed: ` by the closing
catch; the input is `none` when no GeoJSON was provided. -/
def getSoilPolygonsAndAreas (env : SoilEnv) (geojson : Option GeoJson)
    (maxResults : Int := 100) : Except String FCResult × List Stage :=
  match geojson with
  | none => (.error "Soil analysis failed: No GeoJSON provided", [])
  | some gj =>
    match extractAndConvertGeometry env gj with
    | .error e => (.error ("Soil analysis failed: " ++ e), [])
    | .ok (studyGeom, wkt) =>
      match getSoilMapUnitKeys env wkt with
      | .error e =>
        (.error ("Soil analysis failed: " ++ e.message), [Stage.mukeyLookup])
      | .ok mukeys =>
        if mukeys.isEmpty then
          (.ok ⟨[], none⟩, [Stage.mukeyLookup])
        else
          let limited := limitKeys maxResults mukeys
          match getSoilProperties env limited with
          | .error e =>
            (.error ("Soil analysis failed: " ++ e.message),
             [Stage.mukeyLookup, Stage.propertyFetch limited])
          | .ok props =>
            let results := calculateSoilIntersections env limited studyGeom props
            (.ok ⟨results.flatMap (fun u => u.features),
                  some ⟨results.foldl (fun s u => s + u.area_acres) 0,
                        results.length, gj⟩⟩,
             [Stage.mukeyLookup, Stage.propertyFetch limited,
              Stage.intersections limited])

/-- The geometry payload consumed by `generateGeometryHash` (part_000 lines
336-357): its `type` string and its (possibly missing) `features` array. -/
structure GeoPayload : Type where
  ptype : String
  features : Option (List GeoFeature)
deriving DecidableEq

/-- The structural reduction of one feature (part_000 lines 342-345):
only its `type` and `geometry` members are kept. -/
def simplifyFeature (f : GeoFeature) : String × Option Geometry :=
  (f.ftype, f.geometry)

/-- Deterministic serialization of a rational coordinate (a stand-in for the
JavaScript number formatting used by `JSON.stringify`). -/
def jsonOfRat (q : ℚ) : String := toString q

/-- Serialization of a JSON array. -/
def jsonOfList {α : Type} (f : α → String) (l : List α) : String :=
  "[" ++ String.intercalate "," (l.map f) ++ "]"

/-- Serialization of one coordinate pair. -/
def jsonOfPair (p : ℚ × ℚ) : String :=
  "[" ++ jsonOfRat p.1 ++ "," ++ jsonOfRat p.2 ++ "]"

/-- Serialization of a geometry object. -/
def jsonOfGeometry : Geometry → String
  | .polygon rings =>
    "\x7b\"type\":\"Polygon\",\"coordinates\":"
      ++ jsonOfList (jsonOfList jsonOfPair) rings ++ "\x7d"
  | .multiPolygon polys =>
    "\x7b\"type\":\"MultiPolygon\",\"coordinates\":"
      ++ jsonOfList (jsonOfList (jsonOfList jsonOfPair)) polys ++ "\x7d"
  | .other t => "\x7b\"type\":\"" ++ t ++ "\"\x7d"

/-- Serialization of one reduced feature. -/
def jsonOfSimpFeature (f : String × Option Geometry) : String :=
  "\x7b\"type\":\"" ++ f.1 ++ "\",\"geometry\":"
    ++ (match f.2 with | none => "null" | some g => jsonOfGeometry g)
    ++ "\x7d"

/-- `JSON.stringify` of the simplified payload: a function of the payload
type and the reduced feature list only. -/
def simplifiedJson (ptype : String)
    (fs : List (String × Option Geometry)) : String :=
  "\x7b\"type\":\"" ++ ptype ++ "\",\"features\":"
    ++ jsonOfList jsonOfSimpFeature fs ++ "\x7d"

/-- `ToInt32`: the wrap of JavaScript 32-bit bitwise results into
`[-2^31, 2^31)`. -/
def int32 (n : ℤ) : ℤ := (n + 2 ^ 31) % 2 ^ 32 - 2 ^ 31

/-- One iteration of the rolling hash (part_000 lines 352-354):
`hash = (hash << 5) - hash + char` followed by `hash = hash & hash`. -/
def hashStep (h : ℤ) (c : Char) : ℤ := int32 (int32 (h * 32) - h + c.toNat)

/-- The rolling 32-bit hash of a string, starting from 0. -/
def hashString (s : String) : ℤ := s.data.foldl hashStep 0

/-- `generateGeometryHash` (part_000 lines 336-357): `null` for a missing
payload or missing `features`; otherwise the decimal rendering of the
rolling hash of the serialized structural reduction. -/
def generateGeometryHash (p : Option GeoPayload) : Option String :=
  match p with
  | none => none
  | some payload =>
    match payload.features with
    | none => none
    | some fs =>
      some (toString
        (hashString (simplifiedJson payload.ptype (fs.map simplifyFeature))))

/-- A small triangular ring used in concrete scenarios. -/
def ringT : GeoRing := [(0, 0), (2, 0), (2, 2), (0, 0)]

/-- A large triangular ring used in concrete scenarios. -/
def ringB : GeoRing := [(0, 0), (100, 0), (100, 100), (0, 0)]

/-- A small polygon geometry. -/
def tinyGeom : Geometry := Geometry.polygon [ringT]

/-- A large polygon geometry. -/
def bigGeom : Geometry := Geometry.polygon [ringB]

/-- Library behaviour for a tiny soil polygon (0.05 m²) lying inside a large
study area: the direct intersection and the clip both reproduce the tiny
polygon, and the containment test reports it within the large one. -/
def opsTinyInBig : GeomOps where
  intersect := fun _ _ => .ok (some tinyGeom)
  area := fun g => if g = tinyGeom then 1/20 else 10000
  clip := fun _ _ => .ok [[ringT]]
  booleanWithin := fun a b => .ok (a == tinyGeom && b == bigGeom)
  booleanIntersects := fun _ _ => .ok true

/-- Library behaviour where the direct intersection succeeds at once with the
small-but-not-negligible geometry (500 m²), while the small geometry is
within the large one. -/
def opsM1Wins : GeomOps where
  intersect := fun _ _ => .ok (some tinyGeom)
  area := fun _ => 500
  clip := fun _ _ => .ok [[ringT]]
  booleanWithin := fun a b => .ok (a == tinyGeom && b == bigGeom)
  booleanIntersects := fun _ _ => .ok true

/-- Library behaviour where the first two methods throw and only the
containment test answers. -/
def opsFallthrough : GeomOps where
  intersect := fun _ _ => .error ()
  area := fun _ => 500
  clip := fun _ _ => .error ()
  booleanWithin := fun a b => .ok (a == tinyGeom && b == bigGeom)
  booleanIntersects := fun _ _ => .ok true

/-- Helper: a result produced by method 1 passed the 0.1 m² test. -/
theorem robustMethod1_threshold (ops : GeomOps) (soil study : Geometry)
    (r : IntersectionResult) (h : robustMethod1 ops soil study = some r) :
    (1 : ℚ)/10 ≤ r.area := by
  unfold robustMethod1 at h
  split at h
  · exact absurd h (by simp)
  · exact absurd h (by simp)
  · split at h
    · cases h
      assumption
    · exact absurd h (by simp)

/-- Helper: a result produced by method 2 passed the 0.1 m² test. -/
theorem robustMethod2_threshold (ops : GeomOps) (soil study : Geometry)
    (r : IntersectionResult)
    (h : robustMethod2 ops soil study = some (some r)) :
    (1 : ℚ)/10 ≤ r.area := by
  unfold robustMethod2 at h
  split at h
  · split at h
    · exact absurd h (by simp)
    · exact absurd h (by simp)
    · split at h
      · cases h
        assumption
      · exact absurd h (by simp)
  · exact absurd h (by simp)

/-- Helper: method 3 only produces the two containment tags. -/
theorem robustMethod3_tags (ops : GeomOps) (soil study : Geometry)
    (r : IntersectionResult) (h : robustMethod3 ops soil study = some r) :
    r.method = "soil_within_study" ∨ r.method = "study_within_soil" := by
  unfold robustMethod3 at h
  split at h
  · exact absurd h (by simp)
  · cases h
    exact Or.inl rfl
  · split at h
    · exact absurd h (by simp)
    · cases h
      exact Or.inr rfl
    · exact absurd h (by simp)

/-- C1 counterexample: with a 0.05 m² soil polygon contained in the study
area, all candidate areas are below the 0.1 m² threshold, yet the function
returns a non-null result (via the third, containment method) whose area is
0.05 m² < 0.1 m². -/
theorem calculateRobustIntersection_below_threshold_ce :
    calculateRobustIntersection opsTinyInBig tinyGeom bigGeom
      = some ⟨tinyGeom, 1/20, "soil_within_study"⟩
    ∧ (1 : ℚ)/20 < 1/10 := by
  constructor
  · with_unfolding_all rfl
  · norm_num

/-- C1 (amended): a non-null result produced by the first two methods has
area at least 0.1 m²; the third (containment) method enforces no area
threshold, and null is returned when no method produces a result. -/
theorem calculateRobustIntersection_threshold_first_two_methods
    (ops : GeomOps) (soil study : Geometry) (r : IntersectionResult)
    (h : calculateRobustIntersection ops soil study = some r)
    (hm : r.method = "turf_intersect" ∨ r.method = "polygon_clipping") :
    (1 : ℚ)/10 ≤ r.area := by
  unfold calculateRobustIntersection at h
  split at h
  · cases h
    exact robustMethod1_threshold ops soil study r (by assumption)
  · split at h
    · subst h
      exact robustMethod2_threshold ops soil study r (by assumption)
    · have := robustMethod3_tags ops soil study r h
      rcases this with h3 | h3 <;> rcases hm with hm | hm <;>
        rw [hm] at h3 <;> simp at h3

/-- C1 witness: a run where method 1 succeeds with area 500 m². -/
theorem calculateRobustIntersection_threshold_first_two_methods_witness :
    calculateRobustIntersection opsM1Wins tinyGeom bigGeom
      = some ⟨tinyGeom, 500, "turf_intersect"⟩
    ∧ (1 : ℚ)/10 ≤ (500 : ℚ) := by
  refine ⟨by with_unfolding_all rfl, ?_⟩
  exact calculateRobustIntersection_threshold_first_two_methods opsM1Wins
    tinyGeom bigGeom ⟨tinyGeom, 500, "turf_intersect"⟩
    (by with_unfolding_all rfl) (Or.inl rfl)

/-- C7 counterexample: the study area lies entirely within the soil polygon
(the containment oracle confirms it), yet the result is produced by method 1
and carries the tag turf_intersect, not study_within_soil. -/
theorem calculateRobustIntersection_containment_tag_ce :
    opsM1Wins.booleanWithin tinyGeom bigGeom = .ok true
    ∧ calculateRobustIntersection opsM1Wins bigGeom tinyGeom
        = some ⟨tinyGeom, 500, "turf_intersect"⟩
    ∧ ("turf_intersect" : String) ≠ "study_within_soil" := by
  refine ⟨by with_unfolding_all rfl, by with_unfolding_all rfl, by simp⟩

/-- C7 (amended): when the first two methods fall through and the soil
polygon is not within the study area, a positive study-within-soil
containment test yields exactly the study geometry with exactly its own
area (the model is exact, hence within any tolerance) and the tag
study_within_soil. -/
theorem calculateRobustIntersection_study_within_soil
    (ops : GeomOps) (soil study : Geometry)
    (h1 : robustMethod1 ops soil study = none)
    (h2 : robustMethod2 ops soil study = none)
    (h3 : ops.booleanWithin soil study = .ok false)
    (h4 : ops.booleanWithin study soil = .ok true) :
    calculateRobustIntersection ops soil study
      = some ⟨study, ops.area study, "study_within_soil"⟩ := by
  unfold calculateRobustIntersection robustMethod3
  rw [h1, h2, h3, h4]

/-- C7 witness: with both earlier methods throwing, the small study area
inside the large soil polygon is returned unchanged with its own area. -/
theorem calculateRobustIntersection_study_within_soil_witness :
    calculateRobustIntersection opsFallthrough bigGeom tinyGeom
      = some ⟨tinyGeom, opsFallthrough.area tinyGeom, "study_within_soil"⟩ := by
  exact calculateRobustIntersection_study_within_soil opsFallthrough bigGeom
    tinyGeom (by with_unfolding_all rfl) (by with_unfolding_all rfl)
    (by with_unfolding_all rfl) (by with_unfolding_all rfl)

/-- Helper: the attempt indices of the failing-run trace are consecutive. -/
theorem attemptIndices_expectedTraceFrom (n k : Nat) :
    attemptIndices (expectedTraceFrom k n) = List.range' k n := by
  induction n generalizing k with
  | zero => simp [expectedTraceFrom, attemptIndices]
  | succ m ih =>
    cases m with
    | zero => simp [expectedTraceFrom, attemptIndices, List.range']
    | succ m' =>
      rw [List.range'_succ]
      simp only [expectedTraceFrom, attemptIndices, List.filterMap_cons]
      rw [← attemptIndices]
      rw [ih (k + 1)]

/-- Helper: the delays of the failing-run trace are the backoff schedule of
every attempt but the last. -/
theorem delayValues_expectedTraceFrom (n k : Nat) :
    delayValues (expectedTraceFrom k n)
      = (List.range' k (n - 1)).map backoffDelay := by
  induction n generalizing k with
  | zero => simp [expectedTraceFrom, delayValues]
  | succ m ih =>
    cases m with
    | zero => simp [expectedTraceFrom, delayValues, List.range']
    | succ m' =>
      rw [show m' + 1 + 1 - 1 = m' + 1 by omega, List.range'_succ]
      simp only [expectedTraceFrom, delayValues, List.filterMap_cons]
      rw [← delayValues]
      rw [ih (k + 1), List.map_cons]
      rw [show m' + 1 - 1 = m' by omega]

/-- Helper: on a run where every attempt up to `retries` fails with a
non-abort error, the retry loop from position `k` ends with the last error
and produces the attempt/backoff trace. -/
theorem runAttempts_always_failing
    (af : Nat → Except SdaError (List SdaRow)) (err : Nat → SdaError)
    (retries : Nat)
    (haf : ∀ j, j < retries → af j = .error (err j))
    (hname : ∀ j, j < retries → (err j).name ≠ "AbortError") :
    ∀ n k le, retries = k + n → 1 ≤ n →
      runAttempts af retries k le
        = (.error (some (err (retries - 1))), expectedTraceFrom k n) := by
  intro n
  induction n with
  | zero => intro k le h h1; omega
  | succ m ih =>
    intro k le hr _
    have hk : k < retries := by omega
    have hnm := hname k hk
    by_cases hlast : k < retries - 1
    · have h2 : 1 ≤ m := by omega
      obtain ⟨m', rfl⟩ : ∃ m', m = m' + 1 := ⟨m - 1, by omega⟩
      rw [runAttempts]
      simp only [dif_pos hk, haf k hk, if_neg hnm, if_pos hlast,
        ih (k + 1) (some (err k)) (by omega) (by omega)]
      simp [expectedTraceFrom]
    · have hm0 : m = 0 := by omega
      subst hm0
      rw [runAttempts]
      simp only [dif_pos hk, haf k hk, if_neg hnm, if_neg hlast]
      rw [runAttempts]
      simp only [dif_neg (show ¬(k + 1 < retries) by omega)]
      have hk1 : retries - 1 = k := by omega
      simp [expectedTraceFrom, hk1]

/-- C4: on an always-failing endpoint (no attempt aborts), `executeSDQuery`
makes exactly `retries` attempts (indices `0, …, retries-1`), the delays
between consecutive attempts follow `min(1000·2^k, 10000)` with no delay
after the final attempt, and the last error is re-raised verbatim. -/
theorem executeSDQuery_always_failing
    (af : Nat → Except SdaError (List SdaRow)) (err : Nat → SdaError)
    (retries : Nat) (hr : 1 ≤ retries)
    (haf : ∀ j, j < retries → af j = .error (err j))
    (hname : ∀ j, j < retries → (err j).name ≠ "AbortError") :
    executeSDQuery af retries
      = (.error (some (err (retries - 1))), expectedTraceFrom 0 retries)
    ∧ attemptIndices (expectedTraceFrom 0 retries) = List.range retries
    ∧ delayValues (expectedTraceFrom 0 retries)
        = (List.range (retries - 1)).map backoffDelay := by
  refine ⟨?_, ?_, ?_⟩
  · have h := runAttempts_always_failing af err retries haf hname retries 0
      none (by omega) hr
    simpa [executeSDQuery] using h
  · rw [attemptIndices_expectedTraceFrom, List.range_eq_range']
  · rw [delayValues_expectedTraceFrom, List.range_eq_range']

/-- A fetch oracle for which every attempt fails with the same error. -/
def failFetch : Nat → Except SdaError (List SdaRow) :=
  fun _ => .error ⟨"TypeError", "fetch failed"⟩

/-- C4 witness: three failing attempts with delays 1000 ms and 2000 ms and
none after the last, ending in the last error. -/
theorem executeSDQuery_always_failing_witness :
    executeSDQuery failFetch 3
      = (.error (some ⟨"TypeError", "fetch failed"⟩), expectedTraceFrom 0 3)
    ∧ expectedTraceFrom 0 3
      = [QueryEvent.attempt 0, QueryEvent.delay 1000, QueryEvent.attempt 1,
         QueryEvent.delay 2000, QueryEvent.attempt 2] := by
  refine ⟨(executeSDQuery_always_failing failFetch
    (fun _ => ⟨"TypeError", "fetch failed"⟩) 3 (by omega)
    (fun j _ => rfl)
    (fun j _ => (by decide : ("TypeError" : String) ≠ "AbortError"))).1,
    by decide⟩

/-- A bare-Polygon input payload. -/
def gjPoly : GeoJson := GeoJson.geom tinyGeom

/-- An environment whose map-unit lookup finds nothing. -/
def env0 : SoilEnv where
  ops := opsM1Wins
  stringifyWkt := fun _ => "WKTSTR"
  unionGeom := fun _ _ => .ok none
  parseWkt := fun _ => .ok tinyGeom
  mukeyQuery := fun _ => .ok []
  propsQuery := fun _ => .ok []
  polygonQuery := fun _ => .ok []

/-- The 101 keys returned by the lookup of `env101`. -/
def keys101 : List String := (List.range 101).map fun i => toString i

/-- An environment whose map-unit lookup finds 101 distinct keys. -/
def env101 : SoilEnv :=
  { env0 with mukeyQuery := fun _ => .ok ((List.range 101).map fun i => [toString i]) }

/-- An environment for a one-unit happy-path run: one key, one property
row, one polygon row, direct intersection of 500 m². -/
def env1 : SoilEnv :=
  { env0 with
    mukeyQuery := fun _ => .ok [["123456"]]
    propsQuery := fun _ => .ok [["123456", "Sample unit"]]
    polygonQuery := fun _ => .ok [["POLYWKT"]] }

/-- The property table produced by `env1`. -/
def props1 : String → Option SoilProps := fun k =>
  if k = "123456" then some ["123456", "Sample unit"] else none

/-- C2 counterexample: on a zero-key lookup the pipeline returns a
FeatureCollection with empty features but with NO `properties` object at
all, hence not one carrying `total_area_acres = 0` and
`mapunit_count = 0`. -/
theorem getSoilPolygonsAndAreas_zero_keys_ce :
    (getSoilPolygonsAndAreas env0 (some gjPoly) 100).1 = .ok ⟨[], none⟩
    ∧ (getSoilPolygonsAndAreas env0 (some gjPoly) 100).1
        ≠ .ok ⟨[], some ⟨0, 0, gjPoly⟩⟩ := by
  have h : (getSoilPolygonsAndAreas env0 (some gjPoly) 100).1 = .ok ⟨[], none⟩ := by
    with_unfolding_all rfl
  refine ⟨h, ?_⟩
  rw [h]
  intro hc
  simp at hc

/-- C2 (amended): when the extraction succeeds and the lookup returns zero
keys, the pipeline returns, without error, a FeatureCollection with empty
features and no `properties` object, and neither the property-fetch stage
nor the intersection stage is invoked. -/
theorem getSoilPolygonsAndAreas_zero_keys (env : SoilEnv) (gj : GeoJson)
    (mr : Int) (studyGeom : Geometry) (wkt : String)
    (h1 : extractAndConvertGeometry env gj = .ok (studyGeom, wkt))
    (h2 : getSoilMapUnitKeys env wkt = .ok []) :
    getSoilPolygonsAndAreas env (some gj) mr
      = (.ok ⟨[], none⟩, [Stage.mukeyLookup]) := by
  simp [getSoilPolygonsAndAreas, h1, h2]

/-- C2 witness: a concrete zero-key environment. -/
theorem getSoilPolygonsAndAreas_zero_keys_witness :
    getSoilPolygonsAndAreas env0 (some gjPoly) 7
      = (.ok ⟨[], none⟩, [Stage.mukeyLookup]) :=
  getSoilPolygonsAndAreas_zero_keys env0 gjPoly 7 tinyGeom "WKTSTR"
    (by with_unfolding_all rfl) (by with_unfolding_all rfl)

/-- C3 counterexample: with `maxResults` absent the default of 100 applies,
so a 101-key lookup is truncated — not every returned key is processed. -/
theorem getSoilPolygonsAndAreas_default_truncates_ce :
    (getSoilPolygonsAndAreas env101 (some gjPoly)).2
      = [Stage.mukeyLookup, Stage.propertyFetch (keys101.take 100),
         Stage.intersections (keys101.take 100)]
    ∧ keys101.take 100 ≠ keys101 := by
  constructor
  · with_unfolding_all rfl
  · decide

/-- C3 (amended): `maxResults = 0` (or negative) means no truncation; a
positive `maxResults` keeps exactly the first `maxResults` keys in lookup
order (a prefix — no re-sorting); an absent `maxResults` defaults to 100
rather than to unlimited. -/
theorem getSoilPolygonsAndAreas_maxResults (env : SoilEnv) (gj : GeoJson)
    (mr : Int) (studyGeom : Geometry) (wkt : String) (mukeys : List String)
    (h1 : extractAndConvertGeometry env gj = .ok (studyGeom, wkt))
    (h2 : getSoilMapUnitKeys env wkt = .ok mukeys)
    (h3 : mukeys ≠ []) :
    Stage.propertyFetch (limitKeys mr mukeys)
      ∈ (getSoilPolygonsAndAreas env (some gj) mr).2
    ∧ limitKeys 0 mukeys = mukeys
    ∧ (0 < mr → limitKeys mr mukeys = mukeys.take mr.toNat)
    ∧ limitKeys mr mukeys <+: mukeys
    ∧ getSoilPolygonsAndAreas env (some gj)
        = getSoilPolygonsAndAreas env (some gj) 100 := by
  refine ⟨?_, by simp [limitKeys], fun hmr => by simp [limitKeys, hmr],
    ?_, rfl⟩
  · simp only [getSoilPolygonsAndAreas, h1, h2, List.isEmpty_eq_false.mpr h3]
    rcases hp : getSoilProperties env (limitKeys mr mukeys) with e | p <;>
      simp [hp]
  · unfold limitKeys
    split
    · exact List.take_prefix _ _
    · exact List.prefix_refl _

/-- C3 witness: a one-key run with `maxResults = 2`. -/
theorem getSoilPolygonsAndAreas_maxResults_witness :
    Stage.propertyFetch (limitKeys 2 ["123456"])
      ∈ (getSoilPolygonsAndAreas env1 (some gjPoly) 2).2
    ∧ limitKeys 0 ["123456"] = ["123456"]
    ∧ (0 < (2 : Int) → limitKeys 2 ["123456"] = ["123456"].take (2 : Int).toNat)
    ∧ limitKeys 2 ["123456"] <+: ["123456"]
    ∧ getSoilPolygonsAndAreas env1 (some gjPoly)
        = getSoilPolygonsAndAreas env1 (some gjPoly) 100 :=
  getSoilPolygonsAndAreas_maxResults env1 gjPoly 2 tinyGeom "WKTSTR"
    ["123456"] (by with_unfolding_all rfl) (by with_unfolding_all rfl)
    (by simp)

/-- Helper: a left fold of the acreage accumulator equals the starting
value plus the sum of the unit acreages. -/
theorem foldl_area_acres (l : List UnitResult) (a : ℚ) :
    l.foldl (fun s u => s + u.area_acres) a
      = a + (l.map fun u => u.area_acres).sum := by
  induction l generalizing a with
  | nil => simp
  | cons x xs ih => simp [ih, add_assoc]

/-- C5: in a successful non-empty run the result carries
`total_area_acres` equal to the sum of the per-unit acreages,
`mapunit_count` equal to the number of returned units, and the original
input payload echoed back unchanged as `study_area`. -/
theorem getSoilPolygonsAndAreas_result_totals (env : SoilEnv) (gj : GeoJson)
    (mr : Int) (studyGeom : Geometry) (wkt : String) (mukeys : List String)
    (props : String → Option SoilProps)
    (h1 : extractAndConvertGeometry env gj = .ok (studyGeom, wkt))
    (h2 : getSoilMapUnitKeys env wkt = .ok mukeys)
    (h3 : mukeys ≠ [])
    (h4 : getSoilProperties env (limitKeys mr mukeys) = .ok props) :
    (getSoilPolygonsAndAreas env (some gj) mr).1
      = .ok ⟨(calculateSoilIntersections env (limitKeys mr mukeys) studyGeom
                props).flatMap (fun u => u.features),
             some ⟨((calculateSoilIntersections env (limitKeys mr mukeys)
                      studyGeom props).map fun u => u.area_acres).sum,
                   (calculateSoilIntersections env (limitKeys mr mukeys)
                     studyGeom props).length,
                   gj⟩⟩ := by
  simp [getSoilPolygonsAndAreas, h1, h2, List.isEmpty_eq_false.mpr h3, h4,
    foldl_area_acres]

/-- C5 witness: the one-unit happy-path environment. -/
theorem getSoilPolygonsAndAreas_result_totals_witness :
    (getSoilPolygonsAndAreas env1 (some gjPoly) 100).1
      = .ok ⟨(calculateSoilIntersections env1 (limitKeys 100 ["123456"])
                tinyGeom props1).flatMap (fun u => u.features),
             some ⟨((calculateSoilIntersections env1 (limitKeys 100 ["123456"])
                      tinyGeom props1).map fun u => u.area_acres).sum,
                   (calculateSoilIntersections env1 (limitKeys 100 ["123456"])
                     tinyGeom props1).length,
                   gjPoly⟩⟩ :=
  getSoilPolygonsAndAreas_result_totals env1 gjPoly 100 tinyGeom "WKTSTR"
    ["123456"] props1 (by with_unfolding_all rfl) (by with_unfolding_all rfl)
    (by simp) (by with_unfolding_all rfl)

/-- C6: every unit entry in the pipeline output has a strictly positive
total intersection acreage and a present property record for its key. -/
theorem calculateSoilIntersections_kept_units (env : SoilEnv)
    (mukeys : List String) (studyGeom : Geometry)
    (props : String → Option SoilProps) (u : UnitResult)
    (hu : u ∈ calculateSoilIntersections env mukeys studyGeom props) :
    0 < u.area_acres ∧ (props u.mukey).isSome = true := by
  unfold calculateSoilIntersections at hu
  rw [List.mem_mergeSort, List.mem_filterMap] at hu
  obtain ⟨m, _, hpu⟩ := hu
  unfold processUnit at hpu
  split at hpu
  · exact absurd hpu (by simp)
  · exact absurd hpu (by simp)
  · unfold unitOfAccum at hpu
    split at hpu
    · rename_i hcond
      cases hpu
      exact ⟨hcond.1, hcond.2⟩
    · exact absurd hpu (by simp)

/-- The single feature produced by the happy-path environment. -/
def feat1 : OutFeature :=
  ⟨"123456", sqmToAcres 500, 500, "turf_intersect",
   some ["123456", "Sample unit"], tinyGeom⟩

/-- The single unit produced by the happy-path environment. -/
def unit1 : UnitResult := ⟨"123456", sqmToAcres 500, [feat1]⟩

/-- C6 witness: the happy-path unit is in the output, with positive acreage
and a present property record. -/
theorem calculateSoilIntersections_kept_units_witness :
    unit1 ∈ calculateSoilIntersections env1 ["123456"] tinyGeom props1
    ∧ 0 < unit1.area_acres ∧ (props1 unit1.mukey).isSome = true := by
  have hmem : unit1 ∈ calculateSoilIntersections env1 ["123456"] tinyGeom props1 := by
    rw [show calculateSoilIntersections env1 ["123456"] tinyGeom props1
      = [unit1] by with_unfolding_all rfl]
    simp
  exact ⟨hmem,
    calculateSoilIntersections_kept_units env1 ["123456"] tinyGeom props1
      unit1 hmem⟩

/-- Helper: a feature in the accumulated list either was already in the
accumulator or is the output of `processPolygonRow` on some row. -/
theorem mem_accum_features (env : SoilEnv) (studyGeom : Geometry)
    (mukey : String) (props : String → Option SoilProps) :
    ∀ (rows : List SdaRow) (acc : ℚ × List OutFeature) (f : OutFeature),
      f ∈ (rows.foldl (accumStep env studyGeom mukey props) acc).2 →
      f ∈ acc.2
      ∨ ∃ row, processPolygonRow env studyGeom mukey props row = some f := by
  intro rows
  induction rows with
  | nil => intro acc f h; exact Or.inl h
  | cons r rs ih =>
    intro acc f h
    simp only [List.foldl_cons] at h
    rcases hr : processPolygonRow env studyGeom mukey props r with _ | g
    · rcases ih (accumStep env studyGeom mukey props acc r) f h with h0 | hex
      · left
        simpa [accumStep, hr] using h0
      · exact Or.inr hex
    · rcases ih (accumStep env studyGeom mukey props acc r) f h with h0 | hex
      · rw [show accumStep env studyGeom mukey props acc r
          = (acc.1 + g.area_acres, acc.2 ++ [g]) by simp [accumStep, hr]] at h0
        rcases List.mem_append.mp h0 with h1 | h2
        · exact Or.inl h1
        · right
          refine ⟨r, ?_⟩
          rw [hr]
          have hg : f = g := by simpa using h2
          rw [hg]
      · exact Or.inr hex

/-- Helper: a contributing polygon row carries the acreage conversion of
its own square-meter area. -/
theorem processPolygonRow_acres (env : SoilEnv) (studyGeom : Geometry)
    (mukey : String) (props : String → Option SoilProps) (row : SdaRow)
    (f : OutFeature)
    (h : processPolygonRow env studyGeom mukey props row = some f) :
    f.area_acres = sqmToAcres f.area_sqm := by
  unfold processPolygonRow at h
  split at h
  · exact absurd h (by simp)
  · split at h
    · exact absurd h (by simp)
    · split at h
      · exact absurd h (by simp)
      · exact absurd h (by simp)
      · split at h
        · exact absurd h (by simp)
        · split at h
          · cases h
            rfl
          · exact absurd h (by simp)

/-- C10: every emitted feature's `area_acres` is `sqmToAcres` of its own
`area_square_meters`, hence an integer multiple of `10⁻⁶` (numbers modelled
as exact rationals). -/
theorem calculateSoilIntersections_feature_acres (env : SoilEnv)
    (mukeys : List String) (studyGeom : Geometry)
    (props : String → Option SoilProps) (u : UnitResult) (f : OutFeature)
    (hu : u ∈ calculateSoilIntersections env mukeys studyGeom props)
    (hf : f ∈ u.features) :
    f.area_acres = sqmToAcres f.area_sqm
    ∧ ∃ n : ℤ, f.area_acres = (n : ℚ) / 1000000 := by
  unfold calculateSoilIntersections at hu
  rw [List.mem_mergeSort, List.mem_filterMap] at hu
  obtain ⟨m, _, hpu⟩ := hu
  unfold processUnit at hpu
  split at hpu
  · exact absurd hpu (by simp)
  · exact absurd hpu (by simp)
  · unfold unitOfAccum at hpu
    split at hpu
    · cases hpu
      rcases mem_accum_features env studyGeom m props _ _ f hf with h0 | hex
      · simp [accumRows] at h0
      · obtain ⟨row, hrow⟩ := hex
        have hacres := processPolygonRow_acres env studyGeom m props row f hrow
        refine ⟨hacres, ⟨jsRound (f.area_sqm * (247105381 / 1000000000000)
          * 1000000), ?_⟩⟩
        rw [hacres]
        rfl
    · exact absurd hpu (by simp)

/-- C10 witness: the happy-path feature carries the converted acreage. -/
theorem calculateSoilIntersections_feature_acres_witness :
    unit1 ∈ calculateSoilIntersections env1 ["123456"] tinyGeom props1
    ∧ feat1 ∈ unit1.features
    ∧ feat1.area_acres = sqmToAcres feat1.area_sqm
    ∧ ∃ n : ℤ, feat1.area_acres = (n : ℚ) / 1000000 := by
  have hmem : unit1 ∈ calculateSoilIntersections env1 ["123456"] tinyGeom props1 := by
    rw [show calculateSoilIntersections env1 ["123456"] tinyGeom props1
      = [unit1] by with_unfolding_all rfl]
    simp
  have hf : feat1 ∈ unit1.features := by simp [unit1]
  have h := calculateSoilIntersections_feature_acres env1 ["123456"] tinyGeom
    props1 unit1 feat1 hmem hf
  exact ⟨hmem, hf, h.1, h.2⟩

/-- C9: a FeatureCollection whose `features` array is missing or empty is
not answered with an empty result: the normalizer falls through to the
unsupported-type branch and the whole call fails with the wrapped error. -/
theorem emptyFeatureCollection_rejected (env : SoilEnv)
    (fs : Option (List GeoFeature)) (h : fs = none ∨ fs = some [])
    (mr : Int) :
    extractAndConvertGeometry env (GeoJson.fc fs)
      = .error "Geometry processing failed: Unsupported GeoJSON type: FeatureCollection"
    ∧ (getSoilPolygonsAndAreas env (some (GeoJson.fc fs)) mr).1
      = .error "Soil analysis failed: Geometry processing failed: Unsupported GeoJSON type: FeatureCollection" := by
  rcases h with h | h <;> subst h <;> exact ⟨rfl, rfl⟩

/-- C9 witness: the concrete empty FeatureCollection. -/
theorem emptyFeatureCollection_rejected_witness :
    extractAndConvertGeometry env0 (GeoJson.fc (some []))
      = .error "Geometry processing failed: Unsupported GeoJSON type: FeatureCollection"
    ∧ (getSoilPolygonsAndAreas env0 (some (GeoJson.fc (some []))) 5).1
      = .error "Soil analysis failed: Geometry processing failed: Unsupported GeoJSON type: FeatureCollection" :=
  emptyFeatureCollection_rejected env0 (some []) (Or.inr rfl) 5

/-- C8: the geometry fingerprint depends only on the payload type and the
per-feature (type, geometry) reductions; any other feature properties are
discarded before hashing. -/
theorem generateGeometryHash_structural (p1 p2 : GeoPayload)
    (ht : p1.ptype = p2.ptype)
    (hf : p1.features.map (fun fs => fs.map simplifyFeature)
        = p2.features.map (fun fs => fs.map simplifyFeature)) :
    generateGeometryHash (some p1) = generateGeometryHash (some p2) := by
  obtain ⟨t1, f1⟩ := p1
  obtain ⟨t2, f2⟩ := p2
  simp only at ht hf
  subst ht
  cases f1 with
  | none =>
    cases f2 with
    | none => rfl
    | some l2 => simp at hf
  | some l1 =>
    cases f2 with
    | none => simp at hf
    | some l2 =>
      have hmap : l1.map simplifyFeature = l2.map simplifyFeature := by
        simpa using hf
      simp [generateGeometryHash, hmap]

/-- Two payloads identical in type and feature geometries, differing only
in the other feature properties. -/
def payloadA : GeoPayload :=
  ⟨"FeatureCollection", some [⟨"Feature", some tinyGeom, [("name", "parcel-a")]⟩]⟩

/-- The second payload: same structural content as `payloadA`, different
decorative properties. -/
def payloadB : GeoPayload :=
  ⟨"FeatureCollection",
   some [⟨"Feature", some tinyGeom, [("name", "parcel-b"), ("color", "red")]⟩]⟩

/-- C8 witness: the two decorated payloads have equal digests while not
being equal payloads. -/
theorem generateGeometryHash_structural_witness :
    generateGeometryHash (some payloadA) = generateGeometryHash (some payloadB)
    ∧ payloadA ≠ payloadB :=
  ⟨generateGeometryHash_structural payloadA payloadB rfl (by decide),
   by decide⟩
